import Mathlib

/-!
# Verification of the StereoVision toolkit

Shallow embedding of the two source files of the repository:

* `pystereovisiontoolkit.py` — the calibration driver: an argparse-based CLI
  that dispatches, via an `if/elif` chain, to one of five routines
  (live display, mono calibration, stereo calibration, undistortion,
  stereo undistortion), reading and writing pickle files along the way.
* `VisionToolkit/Camera.py` — the camera display module: a capture thread
  (`UsbCamera.run`) that reads frames, converts their colour format and
  invokes a callback, and Qt widgets whose signal/slot wiring displays the
  frames.

Effects (file reads, file writes, routine invocations) are made explicit as
an event trace; exceptions become an `error` flag that cuts the trace short.
-/

namespace StereoVision

/-! ## Calibration driver: data model -/

/-- The five routines the driver can dispatch to. -/
inductive Routine where
  | liveDisplay
  | monoCalibration
  | stereoCalibration
  | undistortion
  | stereoUndistortion
deriving DecidableEq, Repr

/-- Observable effects of a driver run: successful file reads, file writes,
and invocations of the library routines. -/
inductive Event where
  | readFile (name : String)
  | writeFile (name : String)
  | invoke (r : Routine)
deriving DecidableEq, Repr

/-- The parsed command line.  `rows`, `cols` and `mono` are `store` options
(the first two default to the integers 15 and 10 when omitted, hence
`none` here means the default); all remaining flags are `store_true`
booleans. -/
structure Args where
  live : Bool
  rows : Option String
  cols : Option String
  debug : Bool
  mono : Option String
  stereo : Bool
  output : Bool
  left : Bool
  right : Bool
  undistort : Bool
  undistort_stereo : Bool
deriving DecidableEq, Repr

/-- Environment the driver runs in: the result of `glob.glob` for each
pattern, whether opening-and-unpickling each file succeeds, and whether
each external library call returns normally. -/
structure Env where
  globFiles : String → List String
  readOk : String → Bool
  liveOk : Bool
  monoCalibOk : Bool
  stereoCalibOk : Bool
  undistortOk : Bool
  stereoUndistortOk : Bool

/-- Result of a driver run: the chessboard pattern size actually computed
(`none` when `int()` raised), the event trace, the (sorted) file list handed
to `Calibration.CameraCalibration` when that call was made, and whether an
exception propagated out of the script. -/
structure Outcome where
  pattern : Option (Int × Int)
  events : List Event
  monoFiles : Option (List String)
  error : Bool
deriving DecidableEq, Repr

/-! ## Calibration driver: Python primitives -/

/-- The whitespace characters `int()` strips. -/
def pyWhitespace (c : Char) : Bool :=
  c = ' ' || c = '\t' || c = '\n' || c = '\r' || c = '\x0b' || c = '\x0c'

/-- Decimal value of a digit run. -/
def digitsToNat (cs : List Char) : Nat :=
  cs.foldl (fun acc c => acc * 10 + (c.toNat - 48)) 0

/-- Python `int(s)` on a string: optional surrounding whitespace, an
optional sign, then a non-empty run of decimal digits; anything else
raises `ValueError` (modelled as `none`). -/
def pyInt (s : String) : Option Int :=
  let t := ((s.data.dropWhile pyWhitespace).reverse.dropWhile pyWhitespace).reverse
  let neg := t.head? == some '-'
  let core := if neg || (t.head? == some '+') then t.tail else t
  if !core.isEmpty && core.all Char.isDigit then
    some (if neg then -(digitsToNat core : Int) else (digitsToNat core : Int))
  else
    none

/-- `int(args.rows)` / `int(args.cols)`: the argparse default is already the
integer (15 resp. 10), so `int()` only parses when the user supplied a
string. -/
def pyIntArg : Option String → Int → Option Int
  | none, d => some d
  | some s, _ => pyInt s

/-- Python truthiness of `args.mono`: `None` and the empty string are
falsy, every other string is truthy. -/
def pyTruthy : Option String → Bool
  | none => false
  | some s => !s.data.isEmpty

/-- `sorted( ... )` on a list of file names: lexicographic order on
strings. -/
def pySorted (l : List String) : List String :=
  l.mergeSort (fun a b => a ≤ b)

/-! ## Calibration driver: the five branches -/

/-- `args.live` branch: `Viewer.VmbStereoViewer( pattern_size )`. -/
def runLive (env : Env) (ps : Int × Int) : Outcome :=
  ⟨some ps, [.invoke .liveDisplay], none, !env.liveOk⟩

/-- `args.mono` branch: `Calibration.CameraCalibration( sorted( glob.glob(
args.mono ) ), pattern_size, args.debug )`, then the save chain
`if args.output / elif args.left / elif args.right`. -/
def runMono (a : Args) (env : Env) (ps : Int × Int) (pat : String) : Outcome :=
  let files := pySorted (env.globFiles pat)
  if env.monoCalibOk then
    if a.output then
      ⟨some ps, [.invoke .monoCalibration, .writeFile "camera-calibration.pkl"], some files, false⟩
    else if a.left then
      ⟨some ps, [.invoke .monoCalibration, .writeFile "camera-calibration-left.pkl"], some files, false⟩
    else if a.right then
      ⟨some ps, [.invoke .monoCalibration, .writeFile "camera-calibration-right.pkl"], some files, false⟩
    else
      ⟨some ps, [.invoke .monoCalibration], some files, false⟩
  else
    ⟨some ps, [.invoke .monoCalibration], some files, true⟩

/-- `args.stereo` branch: unpickle the left and right calibration files,
call `Calibration.StereoCameraCalibration`, and write
`stereo-calibration.pkl` only under `args.output`. -/
def runStereo (a : Args) (env : Env) (ps : Int × Int) : Outcome :=
  if env.readOk "camera-calibration-left.pkl" then
    if env.readOk "camera-calibration-right.pkl" then
      let ev : List Event :=
        [.readFile "camera-calibration-left.pkl",
         .readFile "camera-calibration-right.pkl",
         .invoke .stereoCalibration]
      if env.stereoCalibOk then
        if a.output then
          ⟨some ps, ev ++ [.writeFile "stereo-calibration.pkl"], none, false⟩
        else
          ⟨some ps, ev, none, false⟩
      else
        ⟨some ps, ev, none, true⟩
    else
      ⟨some ps, [.readFile "camera-calibration-left.pkl"], none, true⟩
  else
    ⟨some ps, [], none, true⟩

/-- `args.undistort` branch: unpickle `camera-calibration.pkl` and call
`Calibration.UndistortImages`. -/
def runUndistort (env : Env) (ps : Int × Int) : Outcome :=
  if env.readOk "camera-calibration.pkl" then
    ⟨some ps, [.readFile "camera-calibration.pkl", .invoke .undistortion], none,
      !env.undistortOk⟩
  else
    ⟨some ps, [], none, true⟩

/-- `args.undistort_stereo` branch: unpickle the left, right and stereo
calibration files and call `Calibration.StereoUndistortImages`. -/
def runUndistortStereo (env : Env) (ps : Int × Int) : Outcome :=
  if env.readOk "camera-calibration-left.pkl" then
    if env.readOk "camera-calibration-right.pkl" then
      if env.readOk "stereo-calibration.pkl" then
        ⟨some ps,
         [.readFile "camera-calibration-left.pkl",
          .readFile "camera-calibration-right.pkl",
          .readFile "stereo-calibration.pkl",
          .invoke .stereoUndistortion], none, !env.stereoUndistortOk⟩
      else
        ⟨some ps,
         [.readFile "camera-calibration-left.pkl",
          .readFile "camera-calibration-right.pkl"], none, true⟩
    else
      ⟨some ps, [.readFile "camera-calibration-left.pkl"], none, true⟩
  else
    ⟨some ps, [], none, true⟩

/-- The whole script: compute `pattern_size = ( int(args.rows),
int(args.cols) )` (raising before any dispatch when a value does not
parse), then run the `if/elif` chain on the flags.  Note that the `elif
args.mono :` test is Python truthiness, not presence of the flag. -/
def driver (a : Args) (env : Env) : Outcome :=
  match pyIntArg a.rows 15, pyIntArg a.cols 10 with
  | some r, some c =>
    let ps : Int × Int := (r, c)
    if a.live then runLive env ps
    else if pyTruthy a.mono then runMono a env ps (a.mono.getD "")
    else if a.stereo then runStereo a env ps
    else if a.undistort then runUndistort env ps
    else if a.undistort_stereo then runUndistortStereo env ps
    else ⟨some ps, [], none, false⟩
  | _, _ => ⟨none, [], none, true⟩

/-- The routines actually invoked during a run, in order. -/
def dispatched (o : Outcome) : List Routine :=
  o.events.filterMap fun e =>
    match e with
    | .invoke r => some r
    | _ => none

/-- The files written during a run, in order. -/
def writes (o : Outcome) : List String :=
  o.events.filterMap fun e =>
    match e with
    | .writeFile n => some n
    | _ => none

/-- The branch the `if/elif` chain selects, written out as the chain reads
in the source: `live`, then truthy `mono`, then `stereo`, then
`undistort`, then `undistort_stereo`. -/
def selectedBranch (a : Args) : Option Routine :=
  if a.live then some .liveDisplay
  else if pyTruthy a.mono then some .monoCalibration
  else if a.stereo then some .stereoCalibration
  else if a.undistort then some .undistortion
  else if a.undistort_stereo then some .stereoUndistortion
  else none

/-- The dispatch rule as the specification words it: the first routine
whose flag is *set* on the command line, where for `-mono` "set" means a
value was supplied at all. -/
def specDispatch (a : Args) : Option Routine :=
  if a.live then some .liveDisplay
  else if a.mono.isSome then some .monoCalibration
  else if a.stereo then some .stereoCalibration
  else if a.undistort then some .undistortion
  else if a.undistort_stereo then some .stereoUndistortion
  else none

/-! ## Camera display: data model -/

/-- A frame: a 2D pixel buffer.  Pixels are channel triples, stored in the
order the camera delivers them (BGR for the USB webcam). -/
structure Frame where
  rows : Nat
  cols : Nat
  pixels : List (Nat × Nat × Nat)
deriving DecidableEq, Repr

/-- `cv2.cvtColor( image, cv2.COLOR_BGR2RGB )`: swap the first and third
channel of every pixel. -/
def cvtColor_BGR2RGB (f : Frame) : Frame :=
  { f with pixels := f.pixels.map fun p => (p.2.2, p.2.1, p.1) }

/-- One `camera.read()` result: the success flag and the returned image
(`none` when the read failed and no image was produced). -/
abbrev ReadResult := Bool × Option Frame

/-- Result of running the capture thread body to completion: the frames
passed to the callback (each one the colour-converted capture), the final
`self.image`, whether `camera.release()` was reached, and whether the
thread died on an exception. -/
structure RunOutcome where
  called : List Frame
  stored : Option Frame
  released : Bool
  crashed : Bool
deriving DecidableEq, Repr

/-- The body of `UsbCamera.run` over a finite schedule of reads (the list
ends when `self.running` turns false).  Each iteration stores the read
result in `self.image` — the success flag is never consulted — then calls
`cv2.cvtColor` on it (raising when the failed read left `None` behind) and
invokes the callback.  After the loop, `camera.release()`. -/
def UsbCamera.runAux : List ReadResult → Option Frame → RunOutcome
  | [], img => ⟨[], img, true, false⟩
  | (_, r) :: rest, _ =>
    match r with
    | none => ⟨[], none, false, true⟩
    | some f =>
      let g := cvtColor_BGR2RGB f
      let o := UsbCamera.runAux rest (some g)
      { o with called := g :: o.called }

/-- `UsbCamera.run` starting from `self.image = None`. -/
def UsbCamera.run (reads : List ReadResult) : RunOutcome :=
  UsbCamera.runAux reads none

/-- State of the capture/display pipeline as the GUI thread sees it:
`stored` is `UsbCamera.image`, `shown` the frames the widget has displayed
so far. -/
structure PipeState where
  stored : Option Frame
  shown : List Frame
deriving DecidableEq, Repr

/-- An event of the interleaved pipeline: the capture thread completes one
loop iteration (a `camera.read` followed by colour conversion and the
signal emission), or the GUI thread runs `UsbCameraWidget.UpdateImage`,
which displays whatever `self.camera.image` currently holds. -/
inductive PipeEv where
  | capture (r : ReadResult)
  | display
deriving DecidableEq, Repr

/-- One pipeline step.  A capture overwrites `stored` unconditionally — no
check that the previous frame was displayed; a display appends the stored
frame to the shown list. -/
def pipeStep (e : PipeEv) (s : PipeState) : PipeState :=
  match e with
  | .capture (_, none) => { s with stored := none }
  | .capture (_, some f) => { s with stored := some (cvtColor_BGR2RGB f) }
  | .display => { s with shown := s.shown ++ s.stored.toList }

/-- Run a schedule of pipeline events. -/
def pipeRun (evs : List PipeEv) (s : PipeState) : PipeState :=
  evs.foldl (fun st e => pipeStep e st) s

/-- The capture loop with the `self.running` flag made explicit: `running
i` is the value the loop's `while` test reads at the top of iteration `i`
(`UsbCamera.Stop` having set it to `False` at some point), `reads i` the
frame iteration `i` captures.  Returns `none` when the fuel runs out
before the flag turns false, otherwise the number of iterations executed,
the callback frames, and whether `camera.release()` ran. -/
def loopFrom (running : Nat → Bool) (reads : Nat → Frame) :
    Nat → Nat → Option (Nat × List Frame × Bool)
  | 0, _ => none
  | fuel + 1, i =>
    if running i then
      match loopFrom running reads fuel (i + 1) with
      | none => none
      | some (n, ds, rel) => some (n + 1, cvtColor_BGR2RGB (reads i) :: ds, rel)
    else
      some (0, [], true)

/-- The mutable state of a `UsbCamera` thread object that shutdown
touches. -/
structure UsbCameraState where
  running : Bool
  joined : Bool
deriving DecidableEq, Repr

/-- `UsbCamera.Stop`: set `self.running = False`, then `self.join()`. -/
def UsbCamera.Stop (_ : UsbCameraState) : UsbCameraState :=
  { running := false, joined := true }

/-- Result of `UsbCameraWidget.closeEvent`: the camera state after the
handler ran, and whether the Qt close event was accepted. -/
structure CloseResult where
  camera : UsbCameraState
  accepted : Bool
deriving DecidableEq, Repr

/-- `UsbCameraWidget.closeEvent`: `self.camera.Stop()`, then
`event.accept()`. -/
def UsbCameraWidget.closeEvent (s : UsbCameraState) : CloseResult :=
  { camera := UsbCamera.Stop s, accepted := true }

/-! ## CLI surface -/

/-- One `parser.add_argument` call: the flag name and whether the action
stores a value (`store`) or is a boolean switch (`store_true`). -/
structure FlagSpec where
  name : String
  takesValue : Bool
deriving DecidableEq, Repr

/-- The eleven `parser.add_argument` calls, in source order. -/
def cliFlags : List FlagSpec :=
  [⟨"-live", false⟩, ⟨"-rows", true⟩, ⟨"-cols", true⟩, ⟨"-debug", false⟩,
   ⟨"-mono", true⟩, ⟨"-stereo", false⟩, ⟨"-output", false⟩, ⟨"-left", false⟩,
   ⟨"-right", false⟩, ⟨"-undistort", false⟩, ⟨"-undistort_stereo", false⟩]

/-! ## Concrete inputs used by counterexamples and witnesses -/

/-- Arguments `-mono ""` together with `-stereo`: the `-mono` flag is
supplied (with an empty glob pattern), and `-stereo` is set. -/
def argsMonoEmptyStereo : Args :=
  { live := false, rows := none, cols := none, debug := false,
    mono := some "", stereo := true, output := false, left := false,
    right := false, undistort := false, undistort_stereo := false }

/-- An environment where every file read and every library call
succeeds, and no file matches any glob pattern. -/
def envAllOk : Env :=
  { globFiles := fun _ => [], readOk := fun _ => true, liveOk := true,
    monoCalibOk := true, stereoCalibOk := true, undistortOk := true,
    stereoUndistortOk := true }

/-- Arguments with every flag off and all values at their defaults. -/
def argsNone : Args :=
  { live := false, rows := none, cols := none, debug := false,
    mono := none, stereo := false, output := false, left := false,
    right := false, undistort := false, undistort_stereo := false }

/-! ## Helper lemmas about the driver branches -/

theorem runMono_pattern (a : Args) (env : Env) (ps : Int × Int) (pat : String) :
    (runMono a env ps pat).pattern = some ps := by
  simp only [runMono]
  repeat' split
  all_goals rfl

theorem runStereo_pattern (a : Args) (env : Env) (ps : Int × Int) :
    (runStereo a env ps).pattern = some ps := by
  simp only [runStereo]
  repeat' split
  all_goals rfl

theorem runUndistort_pattern (env : Env) (ps : Int × Int) :
    (runUndistort env ps).pattern = some ps := by
  simp only [runUndistort]
  repeat' split
  all_goals rfl

theorem runUndistortStereo_pattern (env : Env) (ps : Int × Int) :
    (runUndistortStereo env ps).pattern = some ps := by
  simp only [runUndistortStereo]
  repeat' split
  all_goals rfl

/-- When both `int()` calls succeed, the driver is exactly the `if/elif`
chain at pattern size `(r, c)`. -/
theorem driver_valid (a : Args) (env : Env) {r c : Int}
    (h1 : pyIntArg a.rows 15 = some r) (h2 : pyIntArg a.cols 10 = some c) :
    driver a env =
      if a.live then runLive env (r, c)
      else if pyTruthy a.mono then runMono a env (r, c) (a.mono.getD "")
      else if a.stereo then runStereo a env (r, c)
      else if a.undistort then runUndistort env (r, c)
      else if a.undistort_stereo then runUndistortStereo env (r, c)
      else ⟨some (r, c), [], none, false⟩ := by
  unfold driver
  rw [h1, h2]

/-- When either `int()` call fails, the script stops with an empty trace. -/
theorem driver_invalid (a : Args) (env : Env)
    (h : pyIntArg a.rows 15 = none ∨ pyIntArg a.cols 10 = none) :
    driver a env = ⟨none, [], none, true⟩ := by
  unfold driver
  rcases h1 : pyIntArg a.rows 15 with _ | r
  · rfl
  · rcases h2 : pyIntArg a.cols 10 with _ | c
    · rfl
    · rcases h with h | h
      · exact absurd h1 (h ▸ fun h' => Option.noConfusion h')
      · exact absurd h2 (h ▸ fun h' => Option.noConfusion h')

/-! ## C7: the CLI surface -/

/-- C7: the CLI accepts exactly the flags `-live`, `-rows`, `-cols`,
`-debug`, `-mono`, `-stereo`, `-output`, `-left`, `-right`, `-undistort`
and `-undistort_stereo`, and exactly `-rows`, `-cols` and `-mono` take a
value while the rest are boolean `store_true` switches. -/
theorem C7_cli_flags :
    cliFlags.map FlagSpec.name =
      ["-live", "-rows", "-cols", "-debug", "-mono", "-stereo", "-output",
       "-left", "-right", "-undistort", "-undistort_stereo"] ∧
    (cliFlags.filter FlagSpec.takesValue).map FlagSpec.name =
      ["-rows", "-cols", "-mono"] :=
  ⟨rfl, rfl⟩

/-! ## C9: the chessboard pattern size -/

/-- C9: omitting `-rows`/`-cols` gives the default pattern size `(15, 10)`;
whenever both values parse, the pattern size is `(int(rows), int(cols))`;
and a non-integer value for either flag makes the script raise before any
routine is dispatched (empty trace, error). -/
theorem C9_pattern_size :
    (∀ (a : Args) (env : Env), a.rows = none → a.cols = none →
      (driver a env).pattern = some (15, 10)) ∧
    (∀ (a : Args) (env : Env) (r c : Int),
      pyIntArg a.rows 15 = some r → pyIntArg a.cols 10 = some c →
      (driver a env).pattern = some (r, c)) ∧
    (∀ (a : Args) (env : Env),
      pyIntArg a.rows 15 = none ∨ pyIntArg a.cols 10 = none →
      (driver a env).events = [] ∧ (driver a env).error = true) := by
  have key : ∀ (a : Args) (env : Env) (r c : Int),
      pyIntArg a.rows 15 = some r → pyIntArg a.cols 10 = some c →
      (driver a env).pattern = some (r, c) := by
    intro a env r c h1 h2
    rw [driver_valid a env h1 h2]
    repeat' split
    · rfl
    · exact runMono_pattern ..
    · exact runStereo_pattern ..
    · exact runUndistort_pattern ..
    · exact runUndistortStereo_pattern ..
    · rfl
  refine ⟨fun a env hr hc => ?_, key, fun a env h => ?_⟩
  · exact key a env 15 10 (by rw [hr]; rfl) (by rw [hc]; rfl)
  · rw [driver_invalid a env h]
    exact ⟨rfl, rfl⟩

/-- Witness for C9 at concrete inputs: defaults give `(15, 10)`,
`-rows 7 -cols 5` gives `(7, 5)`, and `-rows x` raises with an empty
trace. -/
theorem C9_pattern_size_witness :
    (driver argsNone envAllOk).pattern = some (15, 10) ∧
    (driver { argsNone with rows := some "7", cols := some "5" } envAllOk).pattern
      = some (7, 5) ∧
    (driver { argsNone with rows := some "x" } envAllOk).events = [] ∧
    (driver { argsNone with rows := some "x" } envAllOk).error = true := by
  refine ⟨?_, ?_, ?_, ?_⟩
  · exact C9_pattern_size.1 argsNone envAllOk rfl rfl
  · exact C9_pattern_size.2.1 _ envAllOk 7 5 (by decide) (by decide)
  · exact (C9_pattern_size.2.2 _ envAllOk (Or.inl (by decide))).1
  · exact (C9_pattern_size.2.2 _ envAllOk (Or.inl (by decide))).2

/-! ## C1: dispatch precedence -/

theorem dispatched_runLive (env : Env) (ps : Int × Int) :
    dispatched (runLive env ps) = [.liveDisplay] := rfl

theorem dispatched_runMono (a : Args) (env : Env) (ps : Int × Int) (pat : String) :
    dispatched (runMono a env ps pat) = [.monoCalibration] := by
  simp only [runMono]
  repeat' split
  all_goals rfl

theorem dispatched_runStereo (a : Args) (env : Env) (ps : Int × Int) :
    dispatched (runStereo a env ps) = [] ∨
    dispatched (runStereo a env ps) = [.stereoCalibration] := by
  simp only [runStereo]
  repeat' split
  all_goals first | exact Or.inl rfl | exact Or.inr rfl

theorem dispatched_runUndistort (env : Env) (ps : Int × Int) :
    dispatched (runUndistort env ps) = [] ∨
    dispatched (runUndistort env ps) = [.undistortion] := by
  simp only [runUndistort]
  repeat' split
  all_goals first | exact Or.inl rfl | exact Or.inr rfl

theorem dispatched_runUndistortStereo (env : Env) (ps : Int × Int) :
    dispatched (runUndistortStereo env ps) = [] ∨
    dispatched (runUndistortStereo env ps) = [.stereoUndistortion] := by
  simp only [runUndistortStereo]
  repeat' split
  all_goals first | exact Or.inl rfl | exact Or.inr rfl

/-- An event list that is empty or a singleton both has length at most one
and only contains the singleton's element. -/
theorem dispatch_shape {o : Outcome} {rX : Routine}
    (h : dispatched o = [] ∨ dispatched o = [rX]) :
    (dispatched o).length ≤ 1 ∧ ∀ r ∈ dispatched o, r = rX := by
  rcases h with h | h <;> rw [h] <;> simp

/-- C1 — counterexample to the claim as stated: with `-mono ""` and
`-stereo`, the `-mono` flag is set (so the spec's precedence picks mono
calibration) yet the code dispatches stereo calibration, because `elif
args.mono :` tests Python truthiness and the empty string is falsy. -/
theorem C1_counterexample :
    specDispatch argsMonoEmptyStereo = some .monoCalibration ∧
    dispatched (driver argsMonoEmptyStereo envAllOk) = [.stereoCalibration] :=
  ⟨rfl, rfl⟩

/-- C1 (amended): the driver invokes at most one of the five routines per
invocation; any routine it invokes is the one selected by the first set
flag in the order `-live`, `-mono`, `-stereo`, `-undistort`,
`-undistort_stereo`, where `-mono` counts as set only when its value is a
non-empty string; and when no flag is selected, no routine is invoked. -/
theorem C1_dispatch_precedence (a : Args) (env : Env) :
    (dispatched (driver a env)).length ≤ 1 ∧
    (∀ r ∈ dispatched (driver a env), selectedBranch a = some r) ∧
    (selectedBranch a = none → dispatched (driver a env) = []) := by
  rcases h1 : pyIntArg a.rows 15 with _ | r
  · rw [driver_invalid a env (Or.inl h1)]
    exact ⟨by simp [dispatched], by simp [dispatched], fun _ => by simp [dispatched]⟩
  rcases h2 : pyIntArg a.cols 10 with _ | c
  · rw [driver_invalid a env (Or.inr h2)]
    exact ⟨by simp [dispatched], by simp [dispatched], fun _ => by simp [dispatched]⟩
  rw [driver_valid a env h1 h2]
  unfold selectedBranch
  by_cases hl : a.live
  · simp only [hl, if_true, dispatched_runLive]
    exact ⟨by simp, by simp, by simp⟩
  by_cases hm : pyTruthy a.mono
  · simp only [hl, hm, if_true, if_false, Bool.false_eq_true, dispatched_runMono]
    exact ⟨by simp, by simp, by simp⟩
  by_cases hs : a.stereo
  · simp only [hl, hm, hs, if_true, if_false, Bool.false_eq_true]
    obtain ⟨hlen, hmem⟩ := dispatch_shape (dispatched_runStereo a env (r, c))
    exact ⟨hlen, fun x hx => by rw [hmem x hx], by simp⟩
  by_cases hu : a.undistort
  · simp only [hl, hm, hs, hu, if_true, if_false, Bool.false_eq_true]
    obtain ⟨hlen, hmem⟩ := dispatch_shape (dispatched_runUndistort env (r, c))
    exact ⟨hlen, fun x hx => by rw [hmem x hx], by simp⟩
  by_cases hus : a.undistort_stereo
  · simp only [hl, hm, hs, hu, hus, if_true, if_false, Bool.false_eq_true]
    obtain ⟨hlen, hmem⟩ := dispatch_shape (dispatched_runUndistortStereo env (r, c))
    exact ⟨hlen, fun x hx => by rw [hmem x hx], by simp⟩
  simp only [hl, hm, hs, hu, hus, if_false, Bool.false_eq_true]
  exact ⟨by simp [dispatched], by simp [dispatched], fun _ => by simp [dispatched]⟩

/-- Witness for C1 at a concrete input: with no flag set, no routine is
invoked. -/
theorem C1_dispatch_precedence_witness :
    dispatched (driver argsNone envAllOk) = [] :=
  (C1_dispatch_precedence argsNone envAllOk).2.2 rfl

/-! ## C10: the mono file list is the sorted glob -/

theorem pySorted_sorted (l : List String) :
    List.Sorted (· ≤ ·) (pySorted l) :=
  List.sorted_mergeSort' l

theorem pySorted_perm (l : List String) : (pySorted l).Perm l :=
  List.mergeSort_perm l _

/-- Sorting is invariant under permutation of the input, hence independent
of filesystem enumeration order. -/
theorem pySorted_perm_invariant {l1 l2 : List String} (h : l1.Perm l2) :
    pySorted l1 = pySorted l2 :=
  List.eq_of_perm_of_sorted
    ((pySorted_perm l1).trans (h.trans (pySorted_perm l2).symm))
    (pySorted_sorted l1) (pySorted_sorted l2)

theorem runMono_monoFiles (a : Args) (env : Env) (ps : Int × Int) (pat : String) :
    (runMono a env ps pat).monoFiles = some (pySorted (env.globFiles pat)) := by
  simp only [runMono]
  repeat' split
  all_goals rfl

/-- C10: in `-mono` mode the file list handed to
`Calibration.CameraCalibration` is the glob's matches in sorted
(lexicographic) order: it is sorted, it is a permutation of the glob
result, and it is the same for any two filesystem enumeration orders of
the same matches. -/
theorem C10_mono_sorted (a : Args) (env : Env) (pat : String) (r c : Int)
    (h1 : pyIntArg a.rows 15 = some r) (h2 : pyIntArg a.cols 10 = some c)
    (hl : a.live = false) (hm : a.mono = some pat) (hp : pat ≠ "") :
    (driver a env).monoFiles = some (pySorted (env.globFiles pat)) ∧
    List.Sorted (· ≤ ·) (pySorted (env.globFiles pat)) ∧
    (pySorted (env.globFiles pat)).Perm (env.globFiles pat) ∧
    ∀ l2 : List String, (env.globFiles pat).Perm l2 →
      pySorted l2 = pySorted (env.globFiles pat) := by
  have hdata : pat.data ≠ [] := fun h => hp (by cases pat; simp_all)
  have htr : pyTruthy a.mono = true := by
    rw [hm]; simp [pyTruthy, hdata]
  refine ⟨?_, pySorted_sorted _, pySorted_perm _,
    fun l2 hperm => pySorted_perm_invariant hperm.symm⟩
  have htr' : pyTruthy (some pat) = true := hm ▸ htr
  rw [driver_valid a env h1 h2]
  simp only [hl, hm, htr', if_true, if_false, Bool.false_eq_true, Option.getD_some]
  exact runMono_monoFiles ..

/-- Witness for C10 at a concrete input: glob pattern `*.png` matching
`b.png` then `a.png` yields the sorted list, identically for the reversed
enumeration order. -/
theorem C10_mono_sorted_witness :
    (driver { argsNone with mono := some "*.png" }
        { envAllOk with globFiles := fun _ => ["b.png", "a.png"] }).monoFiles
      = some (pySorted ["b.png", "a.png"]) ∧
    pySorted ["a.png", "b.png"] = pySorted ["b.png", "a.png"] := by
  have h := C10_mono_sorted { argsNone with mono := some "*.png" }
    { envAllOk with globFiles := fun _ => ["b.png", "a.png"] }
    "*.png" 15 10 rfl rfl rfl rfl (by decide)
  exact ⟨h.1, h.2.2.2 ["a.png", "b.png"] (by decide)⟩

/-! ## C2: the persisted files -/

/-- The four pickle files the spec lists. -/
def calibFileNames : List String :=
  ["camera-calibration.pkl", "camera-calibration-left.pkl",
   "camera-calibration-right.pkl", "stereo-calibration.pkl"]

/-- The file the mono save chain selects: `-output`, else `-left`, else
`-right`, else nothing. -/
def monoSaveFiles (a : Args) : List String :=
  if a.output then ["camera-calibration.pkl"]
  else if a.left then ["camera-calibration-left.pkl"]
  else if a.right then ["camera-calibration-right.pkl"]
  else []

/-- Inversion: the branch chain selected mono calibration. -/
theorem selectedBranch_mono {a : Args}
    (h : selectedBranch a = some .monoCalibration) :
    a.live = false ∧ pyTruthy a.mono = true := by
  unfold selectedBranch at h
  by_cases hl : a.live <;> by_cases hm : pyTruthy a.mono <;>
    by_cases hs : a.stereo <;> by_cases hu : a.undistort <;>
    by_cases hus : a.undistort_stereo <;> simp_all

/-- Inversion: the branch chain selected stereo calibration. -/
theorem selectedBranch_stereo {a : Args}
    (h : selectedBranch a = some .stereoCalibration) :
    a.live = false ∧ pyTruthy a.mono = false ∧ a.stereo = true := by
  unfold selectedBranch at h
  by_cases hl : a.live <;> by_cases hm : pyTruthy a.mono <;>
    by_cases hs : a.stereo <;> by_cases hu : a.undistort <;>
    by_cases hus : a.undistort_stereo <;> simp_all

/-- Inversion: the branch chain selected undistortion. -/
theorem selectedBranch_undistort {a : Args}
    (h : selectedBranch a = some .undistortion) :
    a.live = false ∧ pyTruthy a.mono = false ∧ a.stereo = false ∧
    a.undistort = true := by
  unfold selectedBranch at h
  by_cases hl : a.live <;> by_cases hm : pyTruthy a.mono <;>
    by_cases hs : a.stereo <;> by_cases hu : a.undistort <;>
    by_cases hus : a.undistort_stereo <;> simp_all

/-- Inversion: the branch chain selected stereo undistortion. -/
theorem selectedBranch_undistortStereo {a : Args}
    (h : selectedBranch a = some .stereoUndistortion) :
    a.live = false ∧ pyTruthy a.mono = false ∧ a.stereo = false ∧
    a.undistort = false ∧ a.undistort_stereo = true := by
  unfold selectedBranch at h
  by_cases hl : a.live <;> by_cases hm : pyTruthy a.mono <;>
    by_cases hs : a.stereo <;> by_cases hu : a.undistort <;>
    by_cases hus : a.undistort_stereo <;> simp_all

theorem runMono_calibOk (a : Args) (env : Env) (ps : Int × Int) (pat : String)
    (h : env.monoCalibOk = true) :
    writes (runMono a env ps pat) = monoSaveFiles a ∧
    (runMono a env ps pat).error = false := by
  by_cases ho : a.output <;> by_cases hle : a.left <;> by_cases hr : a.right <;>
    simp [runMono, monoSaveFiles, writes, h, ho, hle, hr]

theorem runMono_calibBad (a : Args) (env : Env) (ps : Int × Int) (pat : String)
    (h : env.monoCalibOk = false) :
    runMono a env ps pat =
      ⟨some ps, [.invoke .monoCalibration],
       some (pySorted (env.globFiles pat)), true⟩ := by
  simp [runMono, h]

/-- C2: the only files the driver ever writes are the four calibration
pickles; in `-mono` mode (calibration returning) the writes are exactly
the single file selected by `-output`, else `-left`, else `-right` (none
without a save flag); and `stereo-calibration.pkl` is only ever written
when `-output` is given. -/
theorem C2_persisted_files (a : Args) (env : Env) :
    (∀ n, Event.writeFile n ∈ (driver a env).events → n ∈ calibFileNames) ∧
    (∀ r c, pyIntArg a.rows 15 = some r → pyIntArg a.cols 10 = some c →
      selectedBranch a = some .monoCalibration → env.monoCalibOk = true →
      writes (driver a env) = monoSaveFiles a) ∧
    (Event.writeFile "stereo-calibration.pkl" ∈ (driver a env).events →
      a.output = true) := by
  refine ⟨fun n hn => ?_, fun r c h1 h2 hsel hok => ?_, fun hn => ?_⟩
  · rcases h1 : pyIntArg a.rows 15 with _ | r
    · rw [driver_invalid a env (Or.inl h1)] at hn; simp at hn
    rcases h2 : pyIntArg a.cols 10 with _ | c
    · rw [driver_invalid a env (Or.inr h2)] at hn; simp at hn
    rw [driver_valid a env h1 h2] at hn
    simp only [runLive, runMono, runStereo, runUndistort, runUndistortStereo] at hn
    repeat' split at hn
    all_goals simp_all [calibFileNames]
  · obtain ⟨hl, hm⟩ := selectedBranch_mono hsel
    rcases hmv : a.mono with _ | pat
    · rw [hmv] at hm; simp [pyTruthy] at hm
    have htr : pyTruthy (some pat) = true := hmv ▸ hm
    rw [driver_valid a env h1 h2]
    simp only [hl, hmv, htr, if_true, if_false, Bool.false_eq_true, Option.getD_some]
    exact (runMono_calibOk a env (r, c) pat hok).1
  · rcases h1 : pyIntArg a.rows 15 with _ | r
    · rw [driver_invalid a env (Or.inl h1)] at hn; simp at hn
    rcases h2 : pyIntArg a.cols 10 with _ | c
    · rw [driver_invalid a env (Or.inr h2)] at hn; simp at hn
    rw [driver_valid a env h1 h2] at hn
    simp only [runLive, runMono, runStereo, runUndistort, runUndistortStereo] at hn
    repeat' split at hn
    all_goals simp_all

/-- Witness for C2 at a concrete input: `-mono "*.png" -output` writes
exactly `camera-calibration.pkl`. -/
theorem C2_persisted_files_witness :
    writes (driver { argsNone with mono := some "m", output := true } envAllOk)
      = ["camera-calibration.pkl"] := by
  have h := (C2_persisted_files { argsNone with mono := some "m", output := true }
    envAllOk).2.1 15 10 rfl rfl rfl rfl
  simpa [monoSaveFiles, argsNone] using h

/-! ## C4: exceptions propagate, no recovery -/

theorem runStereo_left_bad (a : Args) (env : Env) (ps : Int × Int)
    (h : env.readOk "camera-calibration-left.pkl" = false) :
    runStereo a env ps = ⟨some ps, [], none, true⟩ := by
  simp [runStereo, h]

theorem runStereo_right_bad (a : Args) (env : Env) (ps : Int × Int)
    (hL : env.readOk "camera-calibration-left.pkl" = true)
    (hR : env.readOk "camera-calibration-right.pkl" = false) :
    runStereo a env ps =
      ⟨some ps, [.readFile "camera-calibration-left.pkl"], none, true⟩ := by
  simp [runStereo, hL, hR]

theorem runUndistort_bad (env : Env) (ps : Int × Int)
    (h : env.readOk "camera-calibration.pkl" = false) :
    runUndistort env ps = ⟨some ps, [], none, true⟩ := by
  simp [runUndistort, h]

theorem runUndistortStereo_bad (env : Env) (ps : Int × Int)
    (h : env.readOk "camera-calibration-left.pkl" = false ∨
         env.readOk "camera-calibration-right.pkl" = false ∨
         env.readOk "stereo-calibration.pkl" = false) :
    (runUndistortStereo env ps).error = true ∧
    Event.invoke .stereoUndistortion ∉ (runUndistortStereo env ps).events := by
  by_cases hL : env.readOk "camera-calibration-left.pkl" <;>
    by_cases hR : env.readOk "camera-calibration-right.pkl" <;>
    by_cases hS : env.readOk "stereo-calibration.pkl" <;>
    simp_all [runUndistortStereo]

/-- C4: exceptions from the external library calls propagate unhandled.
If unpickling a required calibration file fails, the `-stereo`,
`-undistort` and `-undistort_stereo` branches stop with the exception and
never invoke their library routine (and write nothing); and in `-mono`
mode no output file is created when the calibration call raises. -/
theorem C4_error_propagation (a : Args) (env : Env) (r c : Int)
    (h1 : pyIntArg a.rows 15 = some r) (h2 : pyIntArg a.cols 10 = some c) :
    (selectedBranch a = some .stereoCalibration →
      (env.readOk "camera-calibration-left.pkl" = false ∨
       env.readOk "camera-calibration-right.pkl" = false) →
      (driver a env).error = true ∧
      Event.invoke .stereoCalibration ∉ (driver a env).events ∧
      writes (driver a env) = []) ∧
    (selectedBranch a = some .undistortion →
      env.readOk "camera-calibration.pkl" = false →
      (driver a env).error = true ∧
      Event.invoke .undistortion ∉ (driver a env).events ∧
      writes (driver a env) = []) ∧
    (selectedBranch a = some .stereoUndistortion →
      (env.readOk "camera-calibration-left.pkl" = false ∨
       env.readOk "camera-calibration-right.pkl" = false ∨
       env.readOk "stereo-calibration.pkl" = false) →
      (driver a env).error = true ∧
      Event.invoke .stereoUndistortion ∉ (driver a env).events) ∧
    (selectedBranch a = some .monoCalibration → env.monoCalibOk = false →
      (driver a env).error = true ∧ writes (driver a env) = []) := by
  refine ⟨fun hsel hbad => ?_, fun hsel hbad => ?_, fun hsel hbad => ?_,
    fun hsel hbad => ?_⟩
  · obtain ⟨hl, hm, hs⟩ := selectedBranch_stereo hsel
    rw [driver_valid a env h1 h2]
    simp only [hl, hm, hs, if_true, if_false, Bool.false_eq_true]
    rcases hbad with hL | hR
    · rw [runStereo_left_bad a env (r, c) hL]; simp [writes]
    · by_cases hL : env.readOk "camera-calibration-left.pkl"
      · rw [runStereo_right_bad a env (r, c) hL hR]; simp [writes]
      · rw [runStereo_left_bad a env (r, c) (by simpa using hL)]; simp [writes]
  · obtain ⟨hl, hm, hs, hu⟩ := selectedBranch_undistort hsel
    rw [driver_valid a env h1 h2]
    simp only [hl, hm, hs, hu, if_true, if_false, Bool.false_eq_true]
    rw [runUndistort_bad env (r, c) hbad]; simp [writes]
  · obtain ⟨hl, hm, hs, hu, hus⟩ := selectedBranch_undistortStereo hsel
    rw [driver_valid a env h1 h2]
    simp only [hl, hm, hs, hu, hus, if_true, if_false, Bool.false_eq_true]
    exact runUndistortStereo_bad env (r, c) hbad
  · obtain ⟨hl, hm⟩ := selectedBranch_mono hsel
    rcases hmv : a.mono with _ | pat
    · rw [hmv] at hm; simp [pyTruthy] at hm
    have htr : pyTruthy (some pat) = true := hmv ▸ hm
    rw [driver_valid a env h1 h2]
    simp only [hl, hmv, htr, if_true, if_false, Bool.false_eq_true, Option.getD_some]
    rw [runMono_calibBad a env (r, c) pat hbad]
    simp [writes]

/-- Witness for C4 at a concrete input: `-stereo` with
`camera-calibration-left.pkl` failing to unpickle — the exception
propagates and stereo calibration is never invoked. -/
theorem C4_error_propagation_witness :
    (driver { argsNone with stereo := true }
        { envAllOk with readOk := fun n => n != "camera-calibration-left.pkl" }).error
      = true ∧
    Event.invoke .stereoCalibration ∉
      (driver { argsNone with stereo := true }
        { envAllOk with readOk := fun n => n != "camera-calibration-left.pkl" }).events := by
  have h := (C4_error_propagation { argsNone with stereo := true }
    { envAllOk with readOk := fun n => n != "camera-calibration-left.pkl" }
    15 10 rfl rfl).1 rfl (Or.inl (by decide))
  exact ⟨h.1, h.2.1⟩

/-! ## C8: the read success flag is ignored -/

/-- A concrete test frame (one BGR pixel). -/
def frame0 : Frame := ⟨1, 1, [(1, 2, 3)]⟩

/-- The capture loop never looks at the success flag: any two read
schedules returning the same images produce identical runs. -/
theorem runAux_flag_invariant :
    ∀ (reads1 reads2 : List ReadResult) (img : Option Frame),
      reads1.map Prod.snd = reads2.map Prod.snd →
      UsbCamera.runAux reads1 img = UsbCamera.runAux reads2 img := by
  intro reads1
  induction reads1 with
  | nil =>
    intro reads2 img h
    cases reads2 with
    | nil => rfl
    | cons hd tl => simp at h
  | cons hd tl ih =>
    intro reads2 img h
    cases reads2 with
    | nil => simp at h
    | cons hd2 tl2 =>
      simp only [List.map_cons, List.cons.injEq] at h
      obtain ⟨hh, ht⟩ := h
      obtain ⟨b1, r1⟩ := hd
      obtain ⟨b2, r2⟩ := hd2
      simp only at hh
      subst hh
      cases r1 with
      | none => rfl
      | some f => simp only [UsbCamera.runAux, ih tl2 _ ht]

/-- Unfolding of one successful loop iteration. -/
theorem runAux_cons_some (b : Bool) (f : Frame) (rest : List ReadResult)
    (img : Option Frame) :
    UsbCamera.runAux ((b, some f) :: rest) img =
      { UsbCamera.runAux rest (some (cvtColor_BGR2RGB f)) with
        called := cvtColor_BGR2RGB f ::
          (UsbCamera.runAux rest (some (cvtColor_BGR2RGB f))).called } := rfl

/-- A failed read crashes the thread: the frames called back are exactly
the (converted) successful reads before it, the camera is not released,
and the thread dies. -/
theorem runAux_crash (pre : List ReadResult) (b : Bool) (post : List ReadResult)
    (h : ∀ p ∈ pre, (Prod.snd p).isSome = true) :
    ∀ img, UsbCamera.runAux (pre ++ (b, none) :: post) img =
      ⟨pre.filterMap (fun p => (Prod.snd p).map cvtColor_BGR2RGB),
       none, false, true⟩ := by
  induction pre with
  | nil => intro img; rfl
  | cons hd tl ih =>
    intro img
    obtain ⟨ok, r⟩ := hd
    cases r with
    | none =>
      have := h (ok, none) (by simp)
      simp at this
    | some f =>
      have htl : ∀ p ∈ tl, (Prod.snd p).isSome = true :=
        fun p hp => h p (by simp [hp])
      rw [List.cons_append, runAux_cons_some, ih htl]
      rfl

/-- C8: `UsbCamera.run` ignores the success flag returned by
`camera.read`: runs are invariant under changing the flags; colour
conversion and the callback run even for a read reporting failure; and a
read yielding no image makes the conversion raise, killing the thread
before `camera.release()`. -/
theorem C8_read_flag_ignored :
    (∀ (reads1 reads2 : List ReadResult),
      reads1.map Prod.snd = reads2.map Prod.snd →
      UsbCamera.run reads1 = UsbCamera.run reads2) ∧
    (∀ (b : Bool) (f : Frame) (rest : List ReadResult),
      (UsbCamera.run ((b, some f) :: rest)).called.head?
        = some (cvtColor_BGR2RGB f)) ∧
    (∀ (pre : List ReadResult) (b : Bool) (post : List ReadResult),
      (∀ p ∈ pre, (Prod.snd p).isSome = true) →
      (UsbCamera.run (pre ++ (b, none) :: post)).crashed = true ∧
      (UsbCamera.run (pre ++ (b, none) :: post)).released = false ∧
      (UsbCamera.run (pre ++ (b, none) :: post)).called
        = pre.filterMap (fun p => (Prod.snd p).map cvtColor_BGR2RGB)) := by
  refine ⟨fun r1 r2 h => runAux_flag_invariant r1 r2 none h,
    fun b f rest => rfl, fun pre b post h => ?_⟩
  rw [UsbCamera.run, runAux_crash pre b post h none]
  exact ⟨rfl, rfl, rfl⟩

/-- Witness for C8 at concrete inputs: flipping the flag leaves the run
unchanged, and a failed read after one good frame crashes without
releasing. -/
theorem C8_read_flag_ignored_witness :
    UsbCamera.run [(false, some frame0)] = UsbCamera.run [(true, some frame0)] ∧
    (UsbCamera.run [(false, some frame0), (true, none)]).crashed = true ∧
    (UsbCamera.run [(false, some frame0), (true, none)]).released = false ∧
    (UsbCamera.run [(false, some frame0), (true, none)]).called
      = [cvtColor_BGR2RGB frame0] := by
  refine ⟨C8_read_flag_ignored.1 _ _ rfl, ?_⟩
  have h := C8_read_flag_ignored.2.2 [(false, some frame0)] true []
    (by intro p hp; simp at hp; subst hp; rfl)
  simp only [List.cons_append, List.nil_append] at h
  exact ⟨h.1, h.2.1, by rw [h.2.2]; rfl⟩

/-! ## C5: no backpressure -/

/-- The converted frames that a schedule of pipeline events stores. -/
def capturedFrames (evs : List PipeEv) : List Frame :=
  evs.filterMap fun e =>
    match e with
    | .capture (_, some f) => some (cvtColor_BGR2RGB f)
    | _ => none

theorem pipeRun_cons (e : PipeEv) (rest : List PipeEv) (s : PipeState) :
    pipeRun (e :: rest) s = pipeRun rest (pipeStep e s) := rfl

/-- A frame that is neither stored nor already shown, and that no later
capture reproduces, is never shown. -/
theorem pipeRun_lost (evs : List PipeEv) (s : PipeState) (g : Frame)
    (hst : s.stored ≠ some g) (hsh : g ∉ s.shown)
    (hcap : g ∉ capturedFrames evs) :
    g ∉ (pipeRun evs s).shown ∧ (pipeRun evs s).stored ≠ some g := by
  induction evs generalizing s with
  | nil => exact ⟨hsh, hst⟩
  | cons e rest ih =>
    rw [pipeRun_cons]
    have hcapr : g ∉ capturedFrames rest := by
      intro hg
      exact hcap (by cases e <;> simp [capturedFrames] at hg ⊢ <;> tauto)
    cases e with
    | capture r =>
      obtain ⟨b, rr⟩ := r
      cases rr with
      | none => exact ih _ (fun h => Option.noConfusion h) hsh hcapr
      | some f =>
        have hf : cvtColor_BGR2RGB f ≠ g := by
          intro h
          exact hcap (by simp [capturedFrames, h])
        exact ih _ (fun h => hf (Option.some.inj h)) hsh hcapr
    | display =>
      refine ih _ hst ?_ hcapr
      simp only [pipeStep, List.mem_append]
      rintro (h | h)
      · exact hsh h
      · rcases hs : s.stored with _ | f
        · rw [hs] at h; simp at h
        · rw [hs] at h; simp at h
          exact hst (by rw [hs, h])

/-- C5: the capture pipeline has no backpressure.  A loop iteration
overwrites `UsbCamera.image` with the newly captured (colour-converted)
frame unconditionally — for every prior state, displayed or not — and a
stored frame that has not been displayed when the next capture lands is
lost: unless some later read reproduces it, it never appears in the shown
list. -/
theorem C5_no_backpressure :
    (∀ (s : PipeState) (b : Bool) (f : Frame),
      (pipeStep (.capture (b, some f)) s).stored
        = some (cvtColor_BGR2RGB f)) ∧
    (∀ (s : PipeState) (b : Bool) (f g : Frame) (evs : List PipeEv),
      s.stored = some g → g ∉ s.shown → cvtColor_BGR2RGB f ≠ g →
      g ∉ capturedFrames evs →
      g ∉ (pipeRun evs (pipeStep (.capture (b, some f)) s)).shown) := by
  refine ⟨fun s b f => rfl, fun s b f g evs hst hsh hf hcap => ?_⟩
  exact (pipeRun_lost evs (pipeStep (.capture (b, some f)) s) g
    (fun h => hf (Option.some.inj h)) hsh hcap).1

/-- Witness for C5 at a concrete input: a stored, never-displayed frame is
overwritten by the next capture and never shown. -/
theorem C5_no_backpressure_witness :
    (pipeStep (.capture (true, some frame0)) ⟨some ⟨1, 1, [(9, 9, 9)]⟩, []⟩).stored
      = some (cvtColor_BGR2RGB frame0) ∧
    (⟨1, 1, [(9, 9, 9)]⟩ : Frame) ∉
      (pipeRun [.display]
        (pipeStep (.capture (true, some frame0))
          ⟨some ⟨1, 1, [(9, 9, 9)]⟩, []⟩)).shown :=
  ⟨C5_no_backpressure.1 _ true frame0,
   C5_no_backpressure.2 _ true frame0 ⟨1, 1, [(9, 9, 9)]⟩ [.display]
     rfl (by simp) (by decide) (by simp [capturedFrames])⟩

/-! ## C3: receive, convert, display — once per frame -/

/-- The schedule in which the GUI thread handles each emitted signal
before the capture thread stores the next frame. -/
def alternating (frames : List Frame) : List PipeEv :=
  frames.flatMap fun f => [.capture (true, some f), .display]

theorem pipeRun_alternating (frames : List Frame) (s : PipeState) :
    (pipeRun (alternating frames) s).shown
      = s.shown ++ frames.map cvtColor_BGR2RGB := by
  induction frames generalizing s with
  | nil => simp [alternating, pipeRun]
  | cons f rest ih =>
    have : alternating (f :: rest)
        = .capture (true, some f) :: .display :: alternating rest := rfl
    rw [this, pipeRun_cons, pipeRun_cons, ih]
    simp [pipeStep]

theorem runAux_all_ok (frames : List Frame) :
    ∀ img,
      (UsbCamera.runAux (frames.map fun f => (true, some f)) img).called
        = frames.map cvtColor_BGR2RGB ∧
      (UsbCamera.runAux (frames.map fun f => (true, some f)) img).released
        = true ∧
      (UsbCamera.runAux (frames.map fun f => (true, some f)) img).crashed
        = false := by
  induction frames with
  | nil => intro img; exact ⟨rfl, rfl, rfl⟩
  | cons f rest ih =>
    intro img
    rw [List.map_cons, runAux_cons_some]
    obtain ⟨h1, h2, h3⟩ := ih (some (cvtColor_BGR2RGB f))
    exact ⟨by simp [h1], h2, h3⟩

/-- C3: per captured frame the behaviour is receive → convert colour →
display.  The capture loop invokes the callback exactly once per captured
frame, in order, with the converted frame, and releases the camera when
done; and under the schedule where the GUI handles each signal before the
next capture, the shown frames are exactly the converted captures, in
order. -/
theorem C3_frame_pipeline :
    (∀ frames : List Frame,
      (UsbCamera.run (frames.map fun f => (true, some f))).called
        = frames.map cvtColor_BGR2RGB ∧
      (UsbCamera.run (frames.map fun f => (true, some f))).crashed = false ∧
      (UsbCamera.run (frames.map fun f => (true, some f))).released = true) ∧
    (∀ frames : List Frame,
      (pipeRun (alternating frames) ⟨none, []⟩).shown
        = frames.map cvtColor_BGR2RGB) := by
  constructor
  · intro frames
    obtain ⟨h1, h2, h3⟩ := runAux_all_ok frames none
    exact ⟨h1, h3, h2⟩
  · intro frames
    rw [pipeRun_alternating]
    rfl

/-! ## C6: shutdown by flag and join -/

/-- Once the running flag reads false at some iteration index, the loop
terminates — executing no iteration at or past that index — and releases
the camera. -/
theorem loopFrom_terminates (running : Nat → Bool) (reads : Nat → Frame) :
    ∀ (fuel i j : Nat), j < fuel → running (i + j) = false →
      ∃ n ds, loopFrom running reads fuel i = some (n, ds, true) ∧ n ≤ j := by
  intro fuel
  induction fuel with
  | zero => intro i j hj; omega
  | succ fuel ih =>
    intro i j hj hrun
    by_cases hri : running i
    · cases j with
      | zero =>
        rw [Nat.add_zero] at hrun
        rw [hrun] at hri
        cases hri
      | succ j' =>
        obtain ⟨n, ds, heq, hn⟩ := ih (i + 1) j' (by omega)
          (by rw [← hrun]; congr 1; omega)
        refine ⟨n + 1, cvtColor_BGR2RGB (reads i) :: ds, ?_, by omega⟩
        simp [loopFrom, hri, heq]
    · exact ⟨0, [], by simp [loopFrom, hri], Nat.zero_le j⟩

/-- C6: shutdown is flag-plus-join.  `UsbCamera.Stop` sets `running` to
false and joins the thread; once `running` reads false the capture loop
terminates without executing that iteration and then releases the camera;
and the widget's `closeEvent` performs exactly this stop before accepting
the close. -/
theorem C6_shutdown (s : UsbCameraState) :
    (UsbCamera.Stop s).running = false ∧
    (UsbCamera.Stop s).joined = true ∧
    (∀ (running : Nat → Bool) (reads : Nat → Frame) (k : Nat),
      running k = false →
      ∃ n ds, loopFrom running reads (k + 1) 0 = some (n, ds, true) ∧ n ≤ k) ∧
    UsbCameraWidget.closeEvent s = ⟨UsbCamera.Stop s, true⟩ := by
  refine ⟨rfl, rfl, fun running reads k hk => ?_, rfl⟩
  exact loopFrom_terminates running reads (k + 1) 0 k (by omega) (by simpa using hk)

/-- Witness for C6 at a concrete input: the flag turning false at index 1
stops the loop after at most one iteration, releasing the camera. -/
theorem C6_shutdown_witness :
    ∃ n ds, loopFrom (fun i => i == 0) (fun _ => frame0) 2 0
      = some (n, ds, true) ∧ n ≤ 1 :=
  (C6_shutdown ⟨true, false⟩).2.2.1 (fun i => i == 0) (fun _ => frame0) 1 rfl

end StereoVision
